import Mathlib

/-!
# Verification of the synchronization and caching layer

Shallow embedding of the repository's core: the remote API client
(`src/api/client.py`), the SQLite persistent store (`src/database/client.py`)
and the synchronization orchestrator (`src/repository.py`), together with
proofs about the claims of the specification.

Modelling conventions:
* Time is a single integer axis, in minutes (Python `datetime` values and the
  SQLite `unixepoch`/`fromtimestamp` round trips all live on the same clock in
  the source; `replace(minute=0, second=0, microsecond=0)` becomes `hourFloor`,
  `timedelta(hours=1)` is `60`, `timedelta(days=3, hours=1)` is `4380`,
  `timedelta(days=1)` is `1440`).
* Python exceptions become an explicit error type `PyErr`; fallible functions
  return `Except PyErr` or carry an `Option PyErr` alongside the state they
  reached (SQLite writes that happened before an exception persist).
* SQLite's dynamic typing matters in one place (`update_station_meta` binds a
  station *codename* into the `station_id` column of `station_update`), so
  values that can be either INTEGER or TEXT are modelled by `SQLV`.
* Numeric REAL values are modelled as `Rat`; they are only stored and read
  back, never computed with.
-/

namespace DaVinci

/-- Python exceptions that the synchronization layer raises or handles. -/
inductive PyErr where
  /-- `requests.exceptions.ConnectionError` (transport-level failure). -/
  | connectionError
  /-- `src.api.exceptions.APIError` with the structured GIOŚ error fields. -/
  | apiError (code reason result solution : Option String)
  /-- `src.api.exceptions.TooManyRequests`. -/
  | tooManyRequests
  /-- Python `TypeError` (e.g. unexpected JSON fragment shape, `None` subscripted). -/
  | typeError
  /-- Python `AttributeError` (e.g. `None.isoformat()`, `dict.extend`). -/
  | attributeError
deriving DecidableEq, Repr

/-- Minutes on the common time axis (Python `datetime` / unix timestamps). -/
abbrev DateTime := Int

/-- `dt.replace(minute=0, second=0, microsecond=0)`: truncate to the top of the hour. -/
def hourFloor (t : DateTime) : DateTime := t - t % 60

/-- `timedelta(hours=1)` in minutes. -/
def oneHour : Int := 60

/-- `timedelta(days=3, hours=1)` in minutes (`src/repository.py` lines 148/158). -/
def threeDaysOneHour : Int := 4380

/-- `config.UPDATE_INTERVALS["station"] = timedelta(days=1)` in minutes. -/
def stationInterval : Int := 1440

/-! ## API models (`src/api/models.py`) -/

/-- `models.Station`. -/
structure Station where
  id : Int
  codename : String
  name : String
  district : String
  voivodeship : String
  city : String
  address : String
  latitude : Rat
  longitude : Rat
deriving DecidableEq, Repr

/-- `models.StationMeta` (`close_date` is optional: absent while the station is active). -/
structure StationMeta where
  codename : String
  internationalCodename : Option String
  launchDate : DateTime
  closeDate : Option DateTime
  type : String
deriving DecidableEq, Repr

/-- `models.Index`. -/
structure Index where
  date : Option DateTime
  value : Option Int
deriving DecidableEq, Repr

/-- `models.AirQualityIndexes` (the `sensors` dict as an insertion-ordered list). -/
structure AirQualityIndexes where
  overall : Index
  sensors : List (String × Index)
  indexStatus : Option Bool
  indexCritical : Option String
deriving DecidableEq, Repr

/-- `models.Sensor`. -/
structure Sensor where
  id : Int
  codename : String
  name : String
deriving DecidableEq, Repr

/-- `models.SensorData`. -/
structure SensorData where
  date : DateTime
  value : Rat
deriving DecidableEq, Repr

/-! ## Remote API client (`src/api/client.py`)

One paginated response is an envelope: `totalPages` (missing defaults to 1 via
`response.get("totalPages", 1)`) and the fragment found under the addressed
`target` key, which is list-shaped, map-shaped, or something else. -/

/-- The JSON value under the `target` key of one page. -/
inductive Frag (α : Type) where
  /-- A list-shaped fragment. -/
  | list (xs : List α)
  /-- A map-shaped fragment (insertion-ordered, like a Python dict). -/
  | map (kvs : List (String × α))
  /-- Any other shape (including a missing key, `response.get` returning `None`). -/
  | other
deriving DecidableEq, Repr

/-- One page's response envelope. -/
structure Envelope (α : Type) where
  totalPages : Option Nat
  fragment : Frag α
deriving DecidableEq, Repr

/-- A page oracle: the behaviour of `Client._get` for each page number
(`.error` models the request raising). -/
abbrev Pages (α : Type) := Nat → Except PyErr (Envelope α)

/-- `dict.__setitem__` on an insertion-ordered association list: an existing key
keeps its position and gets the new value, a new key is appended. -/
def dictInsert (d : List (String × α)) (k : String) (v : α) : List (String × α) :=
  if d.any (fun p => p.1 == k) then
    d.map (fun p => if p.1 == k then (k, v) else p)
  else d ++ [(k, v)]

/-- `result.update(fragment)` on insertion-ordered association lists:
keys of `upd` are written left to right, later writes win on collision. -/
def dictUpdate (d upd : List (String × α)) : List (String × α) :=
  upd.foldl (fun acc kv => dictInsert acc kv.1 kv.2) d

/-- The merged result of `Client._get_collected`: a list or a dict. -/
inductive CollectResult (α : Type) where
  /-- Concatenated list fragments. -/
  | list (xs : List α)
  /-- Merged map fragments. -/
  | dict (kvs : List (String × α))
deriving DecidableEq, Repr

/-- The `for page in range(1, total_pages)` loop of `Client._get_collected`:
merge each further page's fragment into the accumulated result.
`result.extend` on a dict and `result.update` on a list raise `AttributeError`;
any other fragment shape raises `TypeError`. -/
def getCollectedLoop (pages : Pages α) : List Nat → CollectResult α →
    Except PyErr (CollectResult α)
  | [], r => .ok r
  | p :: rest, r =>
    match pages p with
    | .error e => .error e
    | .ok env =>
      match env.fragment, r with
      | .list ys, .list xs => getCollectedLoop pages rest (.list (xs ++ ys))
      | .list _, .dict _ => .error .attributeError
      | .map kvs, .dict d => getCollectedLoop pages rest (.dict (dictUpdate d kvs))
      | .map _, .list _ => .error .attributeError
      | .other, _ => .error .typeError

/-- `Client._get_collected`: request page 0 first to learn `totalPages`, seed the
result from page 0's fragment, then merge pages `1, …, totalPages - 1`. -/
def getCollected (pages : Pages α) : Except PyErr (CollectResult α) :=
  match pages 0 with
  | .error e => .error e
  | .ok env0 =>
    let totalPages := env0.totalPages.getD 1
    match env0.fragment with
    | .list xs => getCollectedLoop pages (List.range' 1 (totalPages - 1)) (.list xs)
    | .map kvs => getCollectedLoop pages (List.range' 1 (totalPages - 1)) (.dict kvs)
    | .other => .error .typeError

/-- The page loop of `Client._get_each`, specialised to the list-accumulating
callbacks used by both sensor-data fetches: page 0's already-fetched envelope is
reused, later pages are fetched again; each fragment must be list-shaped (the
callbacks iterate it), anything else raises `TypeError` at that point; the
accumulated prefix survives an exception (the caller's `result` list is already
populated when the exception is raised). -/
def getEachLoop (pages : Pages α) (env0 : Envelope α) :
    List Nat → List α → List α × Option PyErr
  | [], acc => (acc, none)
  | p :: rest, acc =>
    match (if p == 0 then .ok env0 else pages p) with
    | .error e => (acc, some e)
    | .ok env =>
      match env.fragment with
      | .list xs => getEachLoop pages env0 rest (acc ++ xs)
      | _ => (acc, some .typeError)

/-- `Client._get_each` with a list-accumulating callback: returns the collected
entries together with the exception that interrupted the iteration, if any. -/
def getEachList (pages : Pages α) : List α × Option PyErr :=
  match pages 0 with
  | .error e => ([], some e)
  | .ok env0 =>
    let totalPages := env0.totalPages.getD 1
    getEachLoop pages env0 (List.range totalPages) []

/-- The designated rate-limit error code of the archival endpoint. -/
def rateLimitCode : String := "API-ERR-100003"

/-- `Client.fetch_sensor_archival_data` over a page oracle. The `try` block runs
`_get_each`; `except APIError as e: match e.code: case "API-ERR-100003": raise
TooManyRequests(...)` — an `APIError` with the rate-limit code becomes
`TooManyRequests`, an `APIError` with any other code falls through the `match`
and is swallowed (the partially collected `result` is returned), and every
non-`APIError` exception propagates. -/
def fetchSensorArchivalData (pages : Pages SensorData) :
    Except PyErr (List SensorData) :=
  match getEachList pages with
  | (result, none) => .ok result
  | (result, some e) =>
    match e with
    | .apiError code _ _ _ =>
      if code == some rateLimitCode then .error .tooManyRequests
      else .ok result
    | e => .error e

/-! ## Persistent store (`src/database/client.py`)

SQLite tables become insertion-ordered lists of rows; each SQL write statement
becomes a generic combinator (`insertIgnoreBy` for `INSERT OR IGNORE`,
`replaceBy` for `INSERT OR REPLACE` on a table with a unique key — delete the
conflicting row, insert the new one — and `upsertBy` for
`INSERT … ON CONFLICT … DO UPDATE`, which updates the conflicting row in
place). Triggers fire exactly where SQLite fires them: on actually executed
inserts and updates. -/

/-- An SQLite value that may be INTEGER or TEXT (dynamic typing). -/
inductive SQLV where
  /-- INTEGER storage class. -/
  | int (i : Int)
  /-- TEXT storage class. -/
  | text (s : String)
deriving DecidableEq, Repr

/-- `INSERT OR IGNORE`: skip if a row conflicts (satisfies `p`), else append. -/
def insertIgnoreBy (p : ρ → Bool) (new : ρ) (t : List ρ) : List ρ :=
  if t.any p then t else t ++ [new]

/-- `INSERT OR REPLACE` on a table whose conflict target is `p`: the conflicting
row is deleted and the new row inserted. -/
def replaceBy (p : ρ → Bool) (new : ρ) (t : List ρ) : List ρ :=
  t.filter (fun r => !(p r)) ++ [new]

/-- `INSERT … ON CONFLICT … DO UPDATE`: update the conflicting row in place
with `f`, or append the fresh row `new`. -/
def upsertBy (p : ρ → Bool) (f : ρ → ρ) (new : ρ) (t : List ρ) : List ρ :=
  if t.any p then t.map (fun r => if p r then f r else r) else t ++ [new]

/-- A `city` row. -/
structure CityRow where
  id : Int
  district : String
  voivodeship : String
  city : String
deriving DecidableEq, Repr

/-- A `station` row. -/
structure StationRow where
  id : Int
  codename : String
  name : String
  cityId : Int
  address : String
  latitude : Rat
  longitude : Rat
deriving DecidableEq, Repr

/-- A `station_update` row (per-station staleness bookkeeping; `station_id` is
dynamically typed because `update_station_meta` binds a codename into it). -/
structure StationUpdateRow where
  stationId : SQLV
  lastSensorsUpdateAt : Int
  lastIndexesUpdateAt : Int
  lastMetaUpdateAt : Int
deriving DecidableEq, Repr

/-- A `station_meta` row (the table has no unique constraint). -/
structure StationMetaRow where
  stationId : SQLV
  internationalCodename : Option String
  launchDate : DateTime
  shutdownDate : DateTime
  type : String
deriving DecidableEq, Repr

/-- A `sensor` row. -/
structure SensorRow where
  id : Int
  stationId : Int
  sensorTypeId : Option Int
deriving DecidableEq, Repr

/-- An `aq_index` row. -/
structure AqIndexRow where
  stationId : Int
  sensorTypeId : Option Int
  value : Option Int
  recordDate : Option DateTime
deriving DecidableEq, Repr

/-- A `sensor_data` row. -/
structure SensorDataRow where
  sensorId : Int
  date : DateTime
  value : Rat
deriving DecidableEq, Repr

/-- The persistent store.  `globalLastUpdate` is the single
`global_update` row for `GlobalUpdateIds.STATION_LIST`; `sensorTypes` is the
`sensor_type` table, the id of a codename being its position + 1
(AUTOINCREMENT, rows are never deleted). -/
structure Store where
  globalLastUpdate : Int
  cities : List CityRow
  stations : List StationRow
  stationUpdate : List StationUpdateRow
  stationMeta : List StationMetaRow
  sensorTypes : List String
  sensors : List SensorRow
  aqIndex : List AqIndexRow
  sensorData : List SensorDataRow
deriving DecidableEq, Repr

/-- `config.AQ_TYPES`, seeded into `sensor_type` at store creation. -/
def AQ_TYPES : List String := ["Ogólny", "SO2", "NO2", "PM10", "PM2.5", "O3"]

/-- The codename of the synthetic overall index type (`OVERALL_SENSOR_TYPE_CODENAME`). -/
def overallSensorTypeCodename : String := "Ogólny"

/-- A freshly created store (`Client._populate_tables`): the seeded
`global_update` row holds 0, `sensor_type` holds the `AQ_TYPES` catalog. -/
def emptyStore : Store :=
  { globalLastUpdate := 0, cities := [], stations := [], stationUpdate := [],
    stationMeta := [], sensorTypes := AQ_TYPES, sensors := [], aqIndex := [],
    sensorData := [] }

/-- `SELECT id FROM sensor_type WHERE codename = ?`. -/
def sensorTypeLookup (types : List String) (codename : String) : Option Int :=
  (types.findIdx? (fun t => t == codename)).map (fun i => (i : Int) + 1)

namespace DB

/-- AUTOINCREMENT id for a fresh `city` row. -/
def nextCityId (cities : List CityRow) : Int :=
  (cities.map (fun c => c.id)).foldl max 0 + 1

/-- `INSERT OR IGNORE INTO city (district, voivodeship, city)` for one station
(conflict target: the UNIQUE `city` name). -/
def cityInsertIgnore (cities : List CityRow) (s : Station) : List CityRow :=
  insertIgnoreBy (fun c => c.city == s.city)
    ({ id := nextCityId cities, district := s.district, voivodeship := s.voivodeship,
       city := s.city }) cities

/-- One station parameter row of `Client.update_stations`:
`INSERT OR REPLACE INTO station … SELECT … FROM city WHERE city.city = :city` —
if the city select finds no row nothing is inserted and no trigger fires,
otherwise the replaced insert fires the `tgr_on_*_station` trigger that stamps
`global_update` (`now` is the clock the trigger reads). -/
def stationInsert (cities : List CityRow) (now : Int) (acc : Store) (s : Station) :
    Store :=
  match cities.find? (fun c => c.city == s.city) with
  | none => acc
  | some c =>
    let rows := replaceBy (fun r => r.id == s.id || r.codename == s.codename)
      ({ id := s.id, codename := s.codename, name := s.name, cityId := c.id,
         address := s.address, latitude := s.latitude, longitude := s.longitude })
      acc.stations
    { acc with stations := rows, globalLastUpdate := now }

/-- `Client.update_stations`: first `INSERT OR IGNORE` every referenced city,
then insert every station row against the updated city table. -/
def updateStations (stations : List Station) (now : Int) (st : Store) : Store :=
  let cities := stations.foldl cityInsertIgnore st.cities
  stations.foldl (stationInsert cities now) { st with cities := cities }

/-- `Client.get_last_stations_update`. -/
def getLastStationsUpdate (st : Store) : Int := st.globalLastUpdate

/-- A `StationListView` (`src/database/views.py`). -/
structure StationListView where
  id : Int
  name : String
  latitude : Rat
  longitude : Rat
  city : String
deriving DecidableEq, Repr

/-- `Client.get_station_list_view`: `station JOIN city ON city.id = station.city_id`. -/
def getStationListView (st : Store) : List StationListView :=
  st.stations.filterMap (fun s =>
    (st.cities.find? (fun c => c.id == s.cityId)).map (fun c =>
      { id := s.id, name := s.name, latitude := s.latitude,
        longitude := s.longitude, city := c.city }))

/-- The `tgr_on_insert_station_meta` / `tgr_on_update_station_meta` trigger body:
`INSERT OR REPLACE INTO station_update (station_id, last_meta_update_at)` —
REPLACE semantics, so the unspecified columns of a replaced row fall back to
their defaults (0). -/
def metaTrigger (key : SQLV) (now : Int) (t : List StationUpdateRow) :
    List StationUpdateRow :=
  replaceBy (fun r => r.stationId == key)
    ({ stationId := key, lastSensorsUpdateAt := 0, lastIndexesUpdateAt := 0,
       lastMetaUpdateAt := now }) t

/-- `Client.update_station_meta`: the parameter list comprehension calls
`m.close_date.isoformat()` on every record before anything is executed, so a
record with an absent close date raises `AttributeError` and nothing is
written; otherwise each record is inserted into `station_meta` (the table has
no unique constraint, so `INSERT OR REPLACE` never replaces) with the
station *codename* bound into the `station_id` column, and the insert trigger
stamps `station_update` under that TEXT key. -/
def updateStationMeta (meta : List StationMeta) (now : Int) (st : Store) :
    Except PyErr Store :=
  if meta.any (fun m => m.closeDate.isNone) then .error .attributeError
  else
    .ok (meta.foldl (fun acc m =>
      { acc with
        stationMeta := acc.stationMeta ++
          [{ stationId := .text m.codename,
             internationalCodename := m.internationalCodename,
             launchDate := m.launchDate,
             shutdownDate := m.closeDate.getD 0,
             type := m.type }],
        stationUpdate := metaTrigger (.text m.codename) now acc.stationUpdate })
      st)

/-- `Client.fetch_last_station_meta_update`: the row for `station_id` is read
and subscripted without a `None` guard, so a station with no `station_update`
row raises `TypeError` instead of defaulting. -/
def fetchLastStationMetaUpdate (st : Store) (stationId : Int) :
    Except PyErr Int :=
  match st.stationUpdate.find? (fun r => r.stationId == .int stationId) with
  | some r => .ok r.lastMetaUpdateAt
  | none => .error .typeError

/-- `Client.fetch_last_station_air_quality_indexes_update`: a missing row
defaults to `datetime.fromtimestamp(0)`. -/
def fetchLastStationAirQualityIndexesUpdate (st : Store) (stationId : Int) : Int :=
  match st.stationUpdate.find? (fun r => r.stationId == .int stationId) with
  | some r => r.lastIndexesUpdateAt
  | none => 0

/-- `Client.fetch_last_station_sensors_update`: a missing row defaults to
`datetime.fromtimestamp(0)`. -/
def fetchLastStationSensorsUpdate (st : Store) (stationId : Int) : Int :=
  match st.stationUpdate.find? (fun r => r.stationId == .int stationId) with
  | some r => r.lastSensorsUpdateAt
  | none => 0

/-- `Client.update_sensor_types`: `INSERT OR IGNORE INTO sensor_type (codename)`. -/
def updateSensorTypes (types : List String) (st : Store) : Store :=
  { st with sensorTypes :=
      types.foldl (fun acc t => insertIgnoreBy (fun c => c == t) t acc) st.sensorTypes }

/-- The `tgr_on_*_sensor` trigger body: upsert `station_update` setting only
`last_sensors_update_at` (`ON CONFLICT … DO UPDATE SET`), the fresh row using
the column defaults elsewhere. -/
def sensorsTrigger (stationId : Int) (now : Int) (t : List StationUpdateRow) :
    List StationUpdateRow :=
  upsertBy (fun r => r.stationId == .int stationId)
    (fun r => { r with lastSensorsUpdateAt := now })
    ({ stationId := .int stationId, lastSensorsUpdateAt := now,
       lastIndexesUpdateAt := 0, lastMetaUpdateAt := 0 }) t

/-- `Client.update_station_sensors`: add the codenames to `sensor_type`, then
`INSERT OR IGNORE INTO sensor` each record (conflict target: the id primary
key); the trigger fires only when a row is actually inserted. -/
def updateStationSensors (stationId : Int) (sensors : List Sensor) (now : Int)
    (st : Store) : Store :=
  let st := updateSensorTypes (sensors.map (fun s => s.codename)) st
  sensors.foldl (fun acc s =>
    if acc.sensors.any (fun r => r.id == s.id) then acc
    else
      { acc with
        sensors := acc.sensors ++
          [{ id := s.id, stationId := stationId,
             sensorTypeId := sensorTypeLookup acc.sensorTypes s.codename }],
        stationUpdate := sensorsTrigger stationId now acc.stationUpdate }) st

/-- The `tgr_on_*_aq_index` trigger body: upsert `station_update` setting only
`last_indexes_update_at`. -/
def indexesTrigger (stationId : Int) (now : Int) (t : List StationUpdateRow) :
    List StationUpdateRow :=
  upsertBy (fun r => r.stationId == .int stationId)
    (fun r => { r with lastIndexesUpdateAt := now })
    ({ stationId := .int stationId, lastSensorsUpdateAt := 0,
       lastIndexesUpdateAt := now, lastMetaUpdateAt := 0 }) t

/-- One parameter row of `Client.update_station_air_quality_indexes`: insert the
(station, sensor type) index row, `ON CONFLICT(station_id, sensor_type_id) DO
UPDATE` overwriting value and date.  A codename missing from `sensor_type`
yields a NULL `sensor_type_id`, and SQL NULLs never compare equal, so such a
row can never conflict and is plainly appended.  Both the insert and the
update fire an `aq_index` trigger. -/
def aqUpsertRow (stationId : Int) (codename : String) (idx : Index) (now : Int)
    (st : Store) : Store :=
  let tid := sensorTypeLookup st.sensorTypes codename
  let row : AqIndexRow :=
    { stationId := stationId, sensorTypeId := tid, value := idx.value,
      recordDate := idx.date }
  let aq :=
    match tid with
    | none => st.aqIndex ++ [row]
    | some _ =>
      upsertBy (fun r => r.stationId == stationId && r.sensorTypeId == tid)
        (fun r => { r with value := idx.value, recordDate := idx.date }) row
        st.aqIndex
  { st with aqIndex := aq, stationUpdate := indexesTrigger stationId now st.stationUpdate }

/-- `Client.update_station_air_quality_indexes`: one parameter row for the
synthetic overall type followed by one per pollutant key. -/
def updateStationAirQualityIndexes (stationId : Int) (indexes : AirQualityIndexes)
    (now : Int) (st : Store) : Store :=
  ((overallSensorTypeCodename, indexes.overall) :: indexes.sensors).foldl
    (fun acc kv => aqUpsertRow stationId kv.1 kv.2 now acc) st

/-- `Client.fetch_station_air_quality_index_value`. -/
def fetchStationAirQualityIndexValue (st : Store) (stationId : Int)
    (typeCodename : String) : Option (Option Int) :=
  (st.aqIndex.find? (fun r =>
      r.stationId == stationId &&
      r.sensorTypeId == sensorTypeLookup st.sensorTypes typeCodename)).map
    (fun r => r.value)

/-- `Client.update_sensor_data`: upsert each point on the
`(sensor_id, date)` primary key, overwriting the value on conflict.
No trigger is attached to `sensor_data`. -/
def updateSensorData (sensorId : Int) (data : List SensorData) (st : Store) : Store :=
  let rows :=
    data.foldl (fun acc d =>
      upsertBy (fun r => r.sensorId == sensorId && r.date == d.date)
        (fun r => { r with value := d.value })
        ({ sensorId := sensorId, date := d.date, value := d.value }) acc)
      st.sensorData
  { st with sensorData := rows }

/-- `Client.fetch_latest_sensor_record_date` (`SELECT MAX(date)`; ISO strings
compare like the underlying times). -/
def fetchLatestSensorRecordDate (st : Store) (sensorId : Int) : Option DateTime :=
  ((st.sensorData.filter (fun r => r.sensorId == sensorId)).map
    (fun r => r.date)).max?

/-- `Client.fetch_oldest_sensor_record_date` (`SELECT MIN(date)`). -/
def fetchOldestSensorRecordDate (st : Store) (sensorId : Int) : Option DateTime :=
  ((st.sensorData.filter (fun r => r.sensorId == sensorId)).map
    (fun r => r.date)).min?

/-- A `SensorValueView` (`src/database/views.py`). -/
structure SensorValueView where
  date : DateTime
  value : Rat
deriving DecidableEq, Repr

/-- `Client.fetch_sensor_data`: the rows of the inclusive range. -/
def fetchSensorData (st : Store) (sensorId : Int) (dateFrom dateTo : DateTime) :
    List SensorValueView :=
  (st.sensorData.filter (fun r =>
      r.sensorId == sensorId && decide (dateFrom ≤ r.date) &&
      decide (r.date ≤ dateTo))).map
    (fun r => { date := r.date, value := r.value })

end DB

/-! ## Synchronization orchestrator (`src/repository.py`)

The remote client is abstracted as an oracle giving the outcome of each fetch
(`src/api/client.py` is modelled separately above at the pagination level); the
store is threaded explicitly.  Because the SQLite writes that happened before
an exception persist, the stateful paths return the store they reached
together with the pending exception, and the orchestrator's `except` clauses
decide whether it propagates. -/

/-- The behaviour of the shared remote API client during one scenario. -/
structure ApiOracle where
  /-- Outcome of `api_client.fetch_stations()`. -/
  fetchStations : Except PyErr (List Station)
  /-- Outcome of `api_client.fetch_sensor_archival_data(sensor_id, date_from, date_to)`. -/
  fetchSensorArchivalData : Int → DateTime → DateTime → Except PyErr (List SensorData)
  /-- Outcome of `api_client.fetch_sensor_data(sensor_id)` (the "current" endpoint). -/
  fetchSensorData : Int → Except PyErr (List SensorData)

/-- One remote fetch performed while synchronizing sensor data. -/
inductive ApiCall where
  /-- An archival-endpoint fetch over an explicit range. -/
  | archival (sensorId : Int) (dateFrom dateTo : DateTime)
  /-- A current-endpoint fetch. -/
  | current (sensorId : Int)
deriving DecidableEq, Repr

namespace Repository

/-- `Repository.update_stations`: fetch the station catalog and persist it. -/
def updateStations (api : ApiOracle) (now : Int) (st : Store) : Except PyErr Store :=
  match api.fetchStations with
  | .error e => .error e
  | .ok stations => .ok (DB.updateStations stations now st)

/-- `Repository.get_station_list_view`: read the staleness of the station list;
if at least `UPDATE_INTERVALS["station"]` has elapsed, try `update_stations`,
swallowing only `requests.exceptions.ConnectionError`; always answer from the
store afterwards. -/
def getStationListView (api : ApiOracle) (now : Int) (st : Store) :
    Except PyErr (Store × List DB.StationListView) :=
  let lastUpdateAt := DB.getLastStationsUpdate st
  let elapsed := now - lastUpdateAt
  let afterTry : Except PyErr Store :=
    if elapsed ≥ stationInterval then
      match updateStations api now st with
      | .ok st1 => .ok st1
      | .error .connectionError => .ok st
      | .error e => .error e
    else .ok st
  match afterTry with
  | .error e => .error e
  | .ok st1 => .ok (st1, DB.getStationListView st1)

/-- `Repository.update_sensor_data`: if `now - date_from >= timedelta(days=3,
hours=1)` fetch the range from the archival endpoint and persist it; then, if
`now - date_to <= timedelta(days=3, hours=1)`, fetch the current endpoint and
persist that too.  Returns the calls made, the store state reached, and the
exception that interrupted the sequence, if any. -/
def updateSensorData (api : ApiOracle) (now : Int) (sensorId : Int)
    (dateFrom dateTo : DateTime) (st : Store) :
    List ApiCall × Store × Option PyErr :=
  let step1 : List ApiCall × Store × Option PyErr :=
    if now - dateFrom ≥ threeDaysOneHour then
      match api.fetchSensorArchivalData sensorId dateFrom dateTo with
      | .error e => ([.archival sensorId dateFrom dateTo], st, some e)
      | .ok data =>
        ([.archival sensorId dateFrom dateTo], DB.updateSensorData sensorId data st, none)
    else ([], st, none)
  match step1 with
  | (calls, st1, some e) => (calls, st1, some e)
  | (calls, st1, none) =>
    if now - dateTo ≤ threeDaysOneHour then
      match api.fetchSensorData sensorId with
      | .error e => (calls ++ [.current sensorId], st1, some e)
      | .ok data =>
        (calls ++ [.current sensorId], DB.updateSensorData sensorId data st1, none)
    else (calls, st1, none)

/-- What `Repository.fetch_sensor_data` did before serving: the
`update_sensor_data` invocations (with the range each was asked to cover) and
the remote fetches actually performed. -/
structure FetchTrace where
  updCalls : List (DateTime × DateTime)
  apiCalls : List ApiCall
deriving DecidableEq, Repr

/-- The `try` block of `Repository.fetch_sensor_data`: with no stored rows,
refresh the whole `[dateFrom, dateTo]`; otherwise refresh the recent edge when
`dateTo` and the latest stored point differ once truncated to the hour, and
afterwards the historical edge when `dateFrom <= oldest - timedelta(hours=1)`.
A raised exception stops the sequence. -/
def fetchSensorDataTry (api : ApiOracle) (now : Int) (sensorId : Int)
    (dateFrom dateTo : DateTime) (latest oldest : Option DateTime) (st : Store) :
    FetchTrace × Store × Option PyErr :=
  match latest, oldest with
  | some l, some o =>
    let part1 : FetchTrace × Store × Option PyErr :=
      if hourFloor dateTo ≠ hourFloor l then
        let r := updateSensorData api now sensorId (max dateFrom l) dateTo st
        (⟨[(max dateFrom l, dateTo)], r.1⟩, r.2)
      else (⟨[], []⟩, st, none)
    match part1 with
    | (tr, st1, some e) => (tr, st1, some e)
    | (tr, st1, none) =>
      if dateFrom ≤ o - oneHour then
        let r := updateSensorData api now sensorId dateFrom (min dateTo o) st1
        (⟨tr.updCalls ++ [(dateFrom, min dateTo o)], tr.apiCalls ++ r.1⟩, r.2)
      else (tr, st1, none)
  | _, _ =>
    let r := updateSensorData api now sensorId dateFrom dateTo st
    (⟨[(dateFrom, dateTo)], r.1⟩, r.2)

/-- `Repository.fetch_sensor_data`: default `date_to` to `now`, read the covered
interval `[oldest, latest]` from the store, run the refresh `try` block
swallowing only `requests.exceptions.ConnectionError`, and always serve the
store's range query over the state the store reached. -/
def fetchSensorData (api : ApiOracle) (now : Int) (sensorId : Int)
    (dateFrom : DateTime) (dateToOpt : Option DateTime) (st : Store) :
    FetchTrace × Except PyErr (Store × List DB.SensorValueView) :=
  let dateTo := dateToOpt.getD now
  let latest := DB.fetchLatestSensorRecordDate st sensorId
  let oldest := DB.fetchOldestSensorRecordDate st sensorId
  match fetchSensorDataTry api now sensorId dateFrom dateTo latest oldest st with
  | (tr, st1, none) => (tr, .ok (st1, DB.fetchSensorData st1 sensorId dateFrom dateTo))
  | (tr, st1, some .connectionError) =>
    (tr, .ok (st1, DB.fetchSensorData st1 sensorId dateFrom dateTo))
  | (tr, _, some e) => (tr, .error e)

end Repository

/-! ## Generic facts about the SQL write combinators -/

theorem insertIgnoreBy_any {p : ρ → Bool} {new : ρ} (h : p new = true) (t : List ρ) :
    (insertIgnoreBy p new t).any p = true := by
  unfold insertIgnoreBy
  by_cases ha : t.any p
  · simp [ha]
  · simp [ha, h]

theorem insertIgnoreBy_of_any {p : ρ → Bool} {new : ρ} {t : List ρ}
    (h : t.any p = true) : insertIgnoreBy p new t = t := by
  simp [insertIgnoreBy, h]

theorem insertIgnoreBy_idem {p : ρ → Bool} {new : ρ} (h : p new = true) (t : List ρ) :
    insertIgnoreBy p new (insertIgnoreBy p new t) = insertIgnoreBy p new t :=
  insertIgnoreBy_of_any (insertIgnoreBy_any h t)

theorem replaceBy_idem {p : ρ → Bool} {new : ρ} (h : p new = true) (t : List ρ) :
    replaceBy p new (replaceBy p new t) = replaceBy p new t := by
  unfold replaceBy
  rw [List.filter_append, List.filter_filter]
  simp [h]

theorem upsertBy_any {p : ρ → Bool} {f : ρ → ρ} {new : ρ}
    (hnew : p new = true) (hpf : ∀ r, p (f r) = p r) (t : List ρ) :
    (upsertBy p f new t).any p = true := by
  unfold upsertBy
  by_cases ha : t.any p
  · have hpg : (fun r => p (if p r then f r else r)) = fun r => p r := by
      funext r
      by_cases hr : p r <;> simp [hr, hpf]
    simp [ha, List.any_map, Function.comp_def, hpg]
  · simp [ha, hnew]

theorem upsertBy_idem {p : ρ → Bool} {f : ρ → ρ} {new : ρ}
    (hnew : p new = true) (hfnew : f new = new)
    (hpf : ∀ r, p (f r) = p r) (hff : ∀ r, f (f r) = f r) (t : List ρ) :
    upsertBy p f new (upsertBy p f new t) = upsertBy p f new t := by
  have hg : ∀ r, (if p (if p r then f r else r) then f (if p r then f r else r)
      else if p r then f r else r) = if p r then f r else r := by
    intro r
    by_cases hr : p r <;> simp [hr, hpf, hff]
  unfold upsertBy
  by_cases ha : t.any p
  · have hpg : (fun r => p (if p r then f r else r)) = fun r => p r := by
      funext r
      by_cases hr : p r <;> simp [hr, hpf]
    have hany2 : (t.map fun r => if p r then f r else r).any p = true := by
      simpa [List.any_map, Function.comp_def, hpg] using ha
    simp only [ha, if_true, hany2, List.map_map]
    exact List.map_congr_left (fun r _ => hg r)
  · have hmem : ∀ r ∈ t, p r = false := by
      intro r hr
      by_contra hpr
      exact ha (List.any_eq_true.mpr ⟨r, hr, Bool.of_not_eq_false hpr⟩)
    have hany2 : (t ++ [new]).any p = true := by simp [hnew]
    simp only [ha, if_false, Bool.false_eq_true, hany2, if_true, List.map_append]
    have h1 : t.map (fun r => if p r then f r else r) = t := by
      conv_rhs => rw [← t.map_id]
      exact List.map_congr_left (fun r hr => by simp [hmem r hr])
    have h2 : [new].map (fun r => if p r then f r else r) = [new] := by
      simp [hnew, hfnew]
    rw [h1, h2]

/-! ## C8 — idempotent upserts, entity by entity -/

theorem updateStations_single_idem (st : Store) (s : Station) (now : Int) :
    DB.updateStations [s] now (DB.updateStations [s] now st)
      = DB.updateStations [s] now st := by
  have hany : ∀ cs : List CityRow,
      (DB.cityInsertIgnore cs s).any (fun c => c.city == s.city) = true := by
    intro cs
    unfold DB.cityInsertIgnore
    exact insertIgnoreBy_any (by simp) cs
  obtain ⟨c, hc⟩ : ∃ c, (DB.cityInsertIgnore st.cities s).find?
      (fun x => x.city == s.city) = some c := by
    obtain ⟨x, hx, hpx⟩ := List.any_eq_true.mp (hany st.cities)
    exact Option.isSome_iff_exists.mp (List.find?_isSome.mpr ⟨x, hx, hpx⟩)
  have hcid : DB.cityInsertIgnore (DB.cityInsertIgnore st.cities s) s
      = DB.cityInsertIgnore st.cities s := by
    unfold DB.cityInsertIgnore
    exact insertIgnoreBy_of_any (hany st.cities)
  have hrow : replaceBy
      (fun r : StationRow => r.id == s.id || r.codename == s.codename)
      ({ id := s.id, codename := s.codename, name := s.name, cityId := c.id,
         address := s.address, latitude := s.latitude,
         longitude := s.longitude })
      (replaceBy (fun r : StationRow => r.id == s.id || r.codename == s.codename)
        ({ id := s.id, codename := s.codename, name := s.name, cityId := c.id,
           address := s.address, latitude := s.latitude,
           longitude := s.longitude }) st.stations)
      = replaceBy (fun r : StationRow => r.id == s.id || r.codename == s.codename)
        ({ id := s.id, codename := s.codename, name := s.name, cityId := c.id,
           address := s.address, latitude := s.latitude,
           longitude := s.longitude }) st.stations :=
    replaceBy_idem (by simp) st.stations
  simp only [DB.updateStations, List.foldl_cons, List.foldl_nil]
  simp only [DB.stationInsert, hc]
  simp only [hcid, hc, hrow]

theorem updateStationSensors_single_idem (st : Store) (sid : Int) (s : Sensor)
    (now : Int) :
    DB.updateStationSensors sid [s] now (DB.updateStationSensors sid [s] now st)
      = DB.updateStationSensors sid [s] now st := by
  have htypes : ∀ ts : List String,
      insertIgnoreBy (fun c => c == s.codename) s.codename
        (insertIgnoreBy (fun c => c == s.codename) s.codename ts)
        = insertIgnoreBy (fun c => c == s.codename) s.codename ts := by
    intro ts
    exact insertIgnoreBy_idem (by simp) ts
  unfold DB.updateStationSensors DB.updateSensorTypes
  simp only [List.map_cons, List.map_nil, List.foldl_cons, List.foldl_nil]
  by_cases hmem : st.sensors.any (fun r => r.id == s.id)
  · simp [hmem, htypes]
  · simp only [hmem, Bool.false_eq_true, if_false]
    have hmem2 : (st.sensors ++
        [({ id := s.id, stationId := sid,
            sensorTypeId := sensorTypeLookup
              (insertIgnoreBy (fun c => c == s.codename) s.codename st.sensorTypes)
              s.codename } : SensorRow)]).any (fun r => r.id == s.id) = true := by
      simp
    simp [hmem2, htypes]

theorem aqUpsertRow_idem (st : Store) (sid : Int) (c : String) (i : Index)
    (now : Int) (h : sensorTypeLookup st.sensorTypes c ≠ none) :
    DB.aqUpsertRow sid c i now (DB.aqUpsertRow sid c i now st)
      = DB.aqUpsertRow sid c i now st := by
  obtain ⟨k, hk⟩ := Option.ne_none_iff_exists'.mp h
  have htrig : ∀ t, DB.indexesTrigger sid now (DB.indexesTrigger sid now t)
      = DB.indexesTrigger sid now t := by
    intro t
    exact upsertBy_idem (by simp) (by simp) (fun r => by simp) (fun r => by simp) t
  unfold DB.aqUpsertRow
  simp only [hk]
  have haq : ∀ t : List AqIndexRow,
      upsertBy (fun r => r.stationId == sid && r.sensorTypeId == some k)
        (fun r => { r with value := i.value, recordDate := i.date })
        ({ stationId := sid, sensorTypeId := some k, value := i.value,
           recordDate := i.date })
        (upsertBy (fun r => r.stationId == sid && r.sensorTypeId == some k)
          (fun r => { r with value := i.value, recordDate := i.date })
          ({ stationId := sid, sensorTypeId := some k, value := i.value,
             recordDate := i.date }) t)
      = upsertBy (fun r => r.stationId == sid && r.sensorTypeId == some k)
        (fun r => { r with value := i.value, recordDate := i.date })
        ({ stationId := sid, sensorTypeId := some k, value := i.value,
           recordDate := i.date }) t := by
    intro t
    exact upsertBy_idem (by simp) (by simp) (fun r => by simp) (fun r => by simp) t
  simp [haq, htrig]

theorem updateSensorData_single_idem (st : Store) (sid : Int) (d : SensorData) :
    DB.updateSensorData sid [d] (DB.updateSensorData sid [d] st)
      = DB.updateSensorData sid [d] st := by
  unfold DB.updateSensorData
  simp only [List.foldl_cons, List.foldl_nil]
  have h := @upsertBy_idem SensorDataRow
    (fun r => r.sensorId == sid && r.date == d.date)
    (fun r => { r with value := d.value })
    ({ sensorId := sid, date := d.date, value := d.value })
    (by simp) (by simp) (fun r => by simp) (fun r => by simp) st.sensorData
  simp [h]

/-- C8: writing the same Station, Sensor, AirQualityIndex row (one row per
(station, sensor type) pair, its type codename present in the `sensor_type`
catalog as it always is for records the system constructs) or SensorDataPoint
twice leaves the Store in the same state as writing it once: no duplicate rows
are created and the last written values win. -/
theorem claim_C8 :
    (∀ (st : Store) (s : Station) (now : Int),
        DB.updateStations [s] now (DB.updateStations [s] now st)
          = DB.updateStations [s] now st)
  ∧ (∀ (st : Store) (sid : Int) (s : Sensor) (now : Int),
        DB.updateStationSensors sid [s] now (DB.updateStationSensors sid [s] now st)
          = DB.updateStationSensors sid [s] now st)
  ∧ (∀ (st : Store) (sid : Int) (c : String) (i : Index) (now : Int),
        sensorTypeLookup st.sensorTypes c ≠ none →
        DB.aqUpsertRow sid c i now (DB.aqUpsertRow sid c i now st)
          = DB.aqUpsertRow sid c i now st)
  ∧ (∀ (st : Store) (sid : Int) (d : SensorData),
        DB.updateSensorData sid [d] (DB.updateSensorData sid [d] st)
          = DB.updateSensorData sid [d] st) :=
  ⟨updateStations_single_idem, fun st sid s now => updateStationSensors_single_idem st sid s now,
   fun st sid c i now h => aqUpsertRow_idem st sid c i now h,
   fun st sid d => updateSensorData_single_idem st sid d⟩

/-! ## C7 — pagination merge -/

theorem getCollectedLoop_list (pages : Pages α) (xs : Nat → List α)
    (tp : Nat → Option Nat) :
    ∀ (ps : List Nat) (acc : List α),
      (∀ p ∈ ps, pages p = .ok ⟨tp p, .list (xs p)⟩) →
      getCollectedLoop pages ps (.list acc)
        = .ok (.list (ps.foldl (fun a p => a ++ xs p) acc))
  | [], acc, _ => rfl
  | p :: rest, acc, h => by
    have hp := h p (List.mem_cons_self p rest)
    rw [getCollectedLoop, hp]
    exact getCollectedLoop_list pages xs tp rest (acc ++ xs p)
      (fun q hq => h q (List.mem_cons_of_mem p hq))

theorem foldl_append_eq_flatMap (xs : Nat → List α) :
    ∀ (ps : List Nat) (acc : List α),
      ps.foldl (fun a p => a ++ xs p) acc = acc ++ ps.flatMap xs
  | [], acc => by simp
  | p :: rest, acc => by
    rw [List.foldl_cons, foldl_append_eq_flatMap xs rest (acc ++ xs p)]
    simp

set_option maxRecDepth 100000 in
/-- C7: page 0 is requested first and `totalPages` is taken from its envelope;
a list-shaped endpoint concatenates the page fragments in ascending page order
(in particular a 3-page endpoint with fragment sizes [100, 100, 37] yields
exactly the 237 records in page order); a map-shaped endpoint merges keys with
later pages winning on collision; any other fragment shape is a fatal
`TypeError`. -/
theorem claim_C7 :
    (∀ (n : Nat) (xs : Nat → List Nat) (pages : Pages Nat),
        0 < n →
        (∀ i, i < n → pages i = .ok ⟨some n, .list (xs i)⟩) →
        getCollected pages = .ok (.list ((List.range n).flatMap xs)))
  ∧ (getCollected (fun p =>
        if p == 0 then .ok ⟨some 3, .list (List.range' 0 100)⟩
        else if p == 1 then .ok ⟨some 3, .list (List.range' 100 100)⟩
        else .ok ⟨some 3, .list (List.range' 200 37)⟩)
      = .ok (.list (List.range 237)) ∧ (List.range 237).length = 237)
  ∧ (∀ (d1 d2 : List (String × Nat)) (pages : Pages Nat),
        pages 0 = .ok ⟨some 2, .map d1⟩ →
        pages 1 = .ok ⟨some 2, .map d2⟩ →
        getCollected pages = .ok (.dict (dictUpdate d1 d2)))
  ∧ (getCollected (fun p =>
        if p == 0 then .ok ⟨some 2, .map [("a", 1), ("b", 2)]⟩
        else .ok ⟨some 2, .map [("b", 9), ("c", 3)]⟩)
      = .ok (.dict [("a", 1), ("b", 9), ("c", 3)]))
  ∧ (∀ (pages : Pages Nat) (tp : Option Nat),
        pages 0 = .ok ⟨tp, .other⟩ →
        getCollected pages = .error .typeError) := by
  refine ⟨?uniform, ⟨rfl, by simp⟩, ?maps, rfl, ?other⟩
  case uniform =>
    intro n xs pages hn h
    have h0 := h 0 hn
    unfold getCollected
    rw [h0]
    simp only [Option.getD_some]
    rw [getCollectedLoop_list pages xs (fun _ => some n) (List.range' 1 (n - 1))
      (xs 0) (fun p hp => by
        rcases List.mem_range'.mp hp with ⟨hl, hu⟩
        exact h p (by omega))]
    rw [foldl_append_eq_flatMap]
    have hr : List.range n = 0 :: List.range' 1 (n - 1) := by
      rw [List.range_eq_range']
      cases n with
      | zero => omega
      | succ m => simp [List.range'_succ]
    rw [hr, List.flatMap_cons]
  case maps =>
    intro d1 d2 pages h0 h1
    unfold getCollected
    rw [h0]
    simp only [Option.getD_some]
    show getCollectedLoop pages (List.range' 1 1) (.dict d1) = _
    rw [show List.range' 1 1 = [1] from rfl]
    rw [getCollectedLoop, h1]
    rfl
  case other =>
    intro pages tp h0
    unfold getCollected
    rw [h0]

/-- C7 witness: the uniform list case applied at two pages of one record each,
and the map case applied at the concrete colliding pages. -/
theorem claim_C7_witness :
    getCollected (fun _ => .ok ⟨some 2, .list [7]⟩) = .ok (.list [7, 7]) := by
  have h := claim_C7.1 2 (fun _ => [7]) (fun _ => .ok ⟨some 2, .list [7]⟩)
    (by decide) (fun i _ => rfl)
  simpa using h

/-! ## C2 / C3 — error propagation and classification of the archival fetch -/

/-- C2: contrary to the claim, the Remote API Client does swallow an error —
`fetch_sensor_archival_data` catches `APIError`, its `match` re-raises only the
rate-limit code, and any other code falls through, so a structured remote
error (here `API-ERR-100001` on page 1) is silently dropped and the partially
collected result is returned instead of propagating. -/
theorem claim_C2 :
    fetchSensorArchivalData (fun p =>
        if p == 0 then .ok ⟨some 2, .list [⟨0, 1⟩]⟩
        else .error (.apiError (some "API-ERR-100001") none none none))
      = .ok [⟨0, 1⟩] := rfl

/-- C3: when the remote service reports the designated rate-limit error code,
the archival fetch fails with the distinguished `TooManyRequests`, not with
the generic structured error. -/
theorem claim_C3 (pages : Pages SensorData) (r s sol : Option String)
    (h : (getEachList pages).2 = some (.apiError (some rateLimitCode) r s sol)) :
    fetchSensorArchivalData pages = .error .tooManyRequests := by
  rcases hg : getEachList pages with ⟨res, err⟩
  rw [hg] at h
  simp only at h
  subst h
  simp [fetchSensorArchivalData, hg]

/-- C3 witness: a page oracle whose very first request reports the rate-limit
code. -/
theorem claim_C3_witness :
    fetchSensorArchivalData
        (fun _ => .error (.apiError (some rateLimitCode) none none none))
      = .error .tooManyRequests :=
  claim_C3 _ none none none rfl

/-- C8 witness: the idempotence of an AirQualityIndex upsert at a concrete
input, the rate-limited pollutant codename resolving in the seeded catalog. -/
theorem claim_C8_witness :
    DB.aqUpsertRow 1 "NO2" ⟨some 10, some 2⟩ 99
        (DB.aqUpsertRow 1 "NO2" ⟨some 10, some 2⟩ 99 emptyStore)
      = DB.aqUpsertRow 1 "NO2" ⟨some 10, some 2⟩ 99 emptyStore :=
  claim_C8.2.2.1 emptyStore 1 "NO2" ⟨some 10, some 2⟩ 99 (by decide)

/-! ## C6 — staleness lookups for a never-synced station -/

/-- C6: for a station with no `station_update` row the indexes and sensors
staleness lookups default to epoch zero, but the meta staleness lookup
subscripts the missing row without a guard and raises `TypeError`, so not all
three lookups return epoch zero as claimed. -/
theorem claim_C6 :
    DB.fetchLastStationAirQualityIndexesUpdate emptyStore 5 = 0
  ∧ DB.fetchLastStationSensorsUpdate emptyStore 5 = 0
  ∧ DB.fetchLastStationMetaUpdate emptyStore 5 = .error .typeError :=
  ⟨rfl, rfl, rfl⟩

/-! ## C9 — frame effect of a station-metadata write on staleness rows -/

/-- A store holding station 1 (codename "AB") whose staleness row records
sensors refreshed at 100 and indexes refreshed at 200. -/
def c9Store : Store :=
  { emptyStore with
    cities := [⟨1, "d", "v", "City"⟩],
    stations := [⟨1, "AB", "Station AB", 1, "addr", 0, 0⟩],
    stationUpdate := [⟨.int 1, 100, 200, 0⟩] }

/-- The metadata record written for station 1 in the C9 scenario. -/
def c9Meta : StationMeta := ⟨"AB", some "PL-AB", 1000, some 2000, "background"⟩

/-- C9: writing station metadata at time 500 does not stamp the station's own
meta staleness — the trigger keys the stamp by the TEXT codename that
`update_station_meta` bound into `station_id`, leaving the station's
INTEGER-keyed row untouched (its meta timestamp still reads 0, not 500) and
adding a stray row whose sibling columns are the REPLACE defaults.  The
sensors and indexes timestamps of station 1 do keep their prior values. -/
theorem claim_C9 :
    (DB.updateStationMeta [c9Meta] 500 c9Store).map (fun st => st.stationUpdate)
      = .ok [⟨.int 1, 100, 200, 0⟩, ⟨.text "AB", 0, 0, 500⟩]
  ∧ (DB.updateStationMeta [c9Meta] 500 c9Store).map
        (fun st => DB.fetchLastStationMetaUpdate st 1) = .ok (.ok 0)
  ∧ (DB.updateStationMeta [c9Meta] 500 c9Store).map
        (fun st => DB.fetchLastStationSensorsUpdate st 1) = .ok 100
  ∧ (DB.updateStationMeta [c9Meta] 500 c9Store).map
        (fun st => DB.fetchLastStationAirQualityIndexesUpdate st 1) = .ok 200 :=
  ⟨rfl, rfl, rfl, rfl⟩

/-! ## C10 — metadata records with an absent close date -/

/-- C10: a StationMeta record whose close date is absent (the station is still
active) makes `update_station_meta` raise `AttributeError`
(`None.isoformat()`) before anything is written, instead of persisting the
record with a null close date as claimed. -/
theorem claim_C10 :
    DB.updateStationMeta [⟨"AB", some "PL-AB", 1000, none, "background"⟩] 500
        emptyStore
      = .error .attributeError := rfl

/-! ## C1 — fallback to persisted rows on connectivity failure -/

theorem updateSensorData_conn (api : ApiOracle) (now sid : Int)
    (a b : DateTime) (st : Store)
    (h1 : ∀ s x y, api.fetchSensorArchivalData s x y = .error .connectionError)
    (h2 : ∀ s, api.fetchSensorData s = .error .connectionError) :
    (Repository.updateSensorData api now sid a b st).2.1 = st ∧
    ((Repository.updateSensorData api now sid a b st).2.2 = none ∨
      (Repository.updateSensorData api now sid a b st).2.2
        = some .connectionError) := by
  unfold Repository.updateSensorData
  by_cases hf : now - a ≥ threeDaysOneHour
  · simp [hf, h1]
  · by_cases ht : now - b ≤ threeDaysOneHour
    · simp [hf, ht, h2]
    · simp [hf, ht]

theorem fetchSensorDataTry_conn (api : ApiOracle) (now sid : Int)
    (f t : DateTime) (latest oldest : Option DateTime) (st : Store)
    (h1 : ∀ s x y, api.fetchSensorArchivalData s x y = .error .connectionError)
    (h2 : ∀ s, api.fetchSensorData s = .error .connectionError) :
    (Repository.fetchSensorDataTry api now sid f t latest oldest st).2.1 = st ∧
    ((Repository.fetchSensorDataTry api now sid f t latest oldest st).2.2 = none ∨
      (Repository.fetchSensorDataTry api now sid f t latest oldest st).2.2
        = some .connectionError) := by
  have hupd : ∀ (a b : DateTime) (st1 : Store),
      (Repository.updateSensorData api now sid a b st1).2.1 = st1 ∧
      ((Repository.updateSensorData api now sid a b st1).2.2 = none ∨
        (Repository.updateSensorData api now sid a b st1).2.2
          = some .connectionError) :=
    fun a b st1 => updateSensorData_conn api now sid a b st1 h1 h2
  unfold Repository.fetchSensorDataTry
  rcases latest with _ | l
  · exact hupd f t st
  · rcases oldest with _ | o
    · exact hupd f t st
    · by_cases hrecent : hourFloor t ≠ hourFloor l
      · simp only []
        rw [if_pos hrecent]
        have hr1 := hupd (max f l) t st
        revert hr1
        generalize Repository.updateSensorData api now sid (max f l) t st = r1
        rcases r1 with ⟨calls1, st1, err1⟩
        rintro ⟨hst1, herr1⟩
        simp only at hst1 herr1
        subst hst1
        rcases herr1 with herr1 | herr1 <;> subst herr1 <;> simp only []
        · by_cases hold : f ≤ o - oneHour
          · rw [if_pos hold]
            have hr2 := hupd f (min t o) st1
            revert hr2
            generalize Repository.updateSensorData api now sid f (min t o) st1 = r2
            rcases r2 with ⟨calls2, st2, err2⟩
            rintro ⟨hst2, herr2⟩
            simp only at hst2 herr2
            exact ⟨hst2, herr2⟩
          · rw [if_neg hold]
            exact ⟨rfl, Or.inl rfl⟩
        · exact ⟨trivial, Or.inr trivial⟩
      · simp only []
        rw [if_neg hrecent]
        simp only []
        by_cases hold : f ≤ o - oneHour
        · rw [if_pos hold]
          have hr2 := hupd f (min t o) st
          revert hr2
          generalize Repository.updateSensorData api now sid f (min t o) st = r2
          rcases r2 with ⟨calls2, st2, err2⟩
          rintro ⟨hst2, herr2⟩
          simp only at hst2 herr2
          exact ⟨hst2, herr2⟩
        · rw [if_neg hold]
          exact ⟨rfl, Or.inl rfl⟩

/-- C1: with the remote client failing with a connectivity error, the
orchestrator's read for the station list and the read for a per-station
sensor-data range do not raise — they log, leave the store as it was, and
return the rows already persisted. -/
theorem claim_C1 :
    (∀ (api : ApiOracle) (now : Int) (st : Store),
        api.fetchStations = .error .connectionError →
        st.stations ≠ [] →
        Repository.getStationListView api now st
          = .ok (st, DB.getStationListView st))
  ∧ (∀ (api : ApiOracle) (now sid : Int) (f : DateTime) (tOpt : Option DateTime)
        (st : Store),
        (∀ s a b, api.fetchSensorArchivalData s a b = .error .connectionError) →
        (∀ s, api.fetchSensorData s = .error .connectionError) →
        DB.fetchSensorData st sid f (tOpt.getD now) ≠ [] →
        (Repository.fetchSensorData api now sid f tOpt st).2
          = .ok (st, DB.fetchSensorData st sid f (tOpt.getD now))) := by
  constructor
  · intro api now st hconn _
    unfold Repository.getStationListView Repository.updateStations
    by_cases hstale : now - DB.getLastStationsUpdate st ≥ stationInterval
    · simp [hstale, hconn]
    · simp [hstale]
  · intro api now sid f tOpt st h1 h2 _
    unfold Repository.fetchSensorData
    rcases htry : Repository.fetchSensorDataTry api now sid f (tOpt.getD now)
        (DB.fetchLatestSensorRecordDate st sid)
        (DB.fetchOldestSensorRecordDate st sid) st with ⟨tr, st1, err⟩
    have h := fetchSensorDataTry_conn api now sid f (tOpt.getD now)
      (DB.fetchLatestSensorRecordDate st sid)
      (DB.fetchOldestSensorRecordDate st sid) st h1 h2
    rw [htry] at h
    rcases h with ⟨hst, herr⟩
    simp only at hst herr
    subst hst
    rcases herr with herr | herr <;> subst herr <;> simp [htry]

/-- C1 witness: a store holding one persisted measurement for sensor 7 and a
remote client that always fails with a connectivity error. -/
theorem claim_C1_witness :
    Repository.getStationListView
        ⟨.error .connectionError, fun _ _ _ => .error .connectionError,
          fun _ => .error .connectionError⟩ 2000 c9Store
      = .ok (c9Store, DB.getStationListView c9Store)
  ∧ (Repository.fetchSensorData
        ⟨.error .connectionError, fun _ _ _ => .error .connectionError,
          fun _ => .error .connectionError⟩ 200 7 0 (some 150)
        { emptyStore with sensorData := [⟨7, 100, 1⟩] }).2
      = .ok ({ emptyStore with sensorData := [⟨7, 100, 1⟩] },
          [⟨100, 1⟩]) := by
  constructor
  · exact claim_C1.1 _ 2000 c9Store rfl (by simp [c9Store])
  · have h := claim_C1.2 ⟨.error .connectionError,
      fun _ _ _ => .error .connectionError, fun _ => .error .connectionError⟩
      200 7 0 (some 150) { emptyStore with sensorData := [⟨7, 100, 1⟩] }
      (fun _ _ _ => rfl) (fun _ => rfl) (by decide)
    simpa using h

/-! ## C4 — which refreshes a sensor-data request attempts -/

theorem updateSensorData_ok (api : ApiOracle) (now sid : Int) (a b : DateTime)
    (st : Store)
    (h1 : ∀ s x y, ∃ d, api.fetchSensorArchivalData s x y = .ok d)
    (h2 : ∀ s, ∃ d, api.fetchSensorData s = .ok d) :
    (Repository.updateSensorData api now sid a b st).2.2 = none := by
  obtain ⟨d1, hd1⟩ := h1 sid a b
  obtain ⟨d2, hd2⟩ := h2 sid
  unfold Repository.updateSensorData
  by_cases hf : now - a ≥ threeDaysOneHour
  · by_cases ht : now - b ≤ threeDaysOneHour
    · simp [hf, ht, hd1, hd2]
    · simp [hf, ht, hd1]
  · by_cases ht : now - b ≤ threeDaysOneHour
    · simp [hf, ht, hd2]
    · simp [hf, ht]

theorem fetchSensorData_trace (api : ApiOracle) (now sid : Int) (f : DateTime)
    (tOpt : Option DateTime) (st : Store) :
    (Repository.fetchSensorData api now sid f tOpt st).1
      = (Repository.fetchSensorDataTry api now sid f (tOpt.getD now)
          (DB.fetchLatestSensorRecordDate st sid)
          (DB.fetchOldestSensorRecordDate st sid) st).1 := by
  unfold Repository.fetchSensorData
  rcases h : Repository.fetchSensorDataTry api now sid f (tOpt.getD now)
      (DB.fetchLatestSensorRecordDate st sid)
      (DB.fetchOldestSensorRecordDate st sid) st with ⟨tr, st1, err⟩
  rcases err with _ | e
  · simp [h]
  · rcases e <;> simp [h]

theorem fetchSensorDataTry_updCalls (api : ApiOracle) (now sid : Int)
    (f t l o : DateTime) (st : Store)
    (h1 : ∀ s x y, ∃ d, api.fetchSensorArchivalData s x y = .ok d)
    (h2 : ∀ s, ∃ d, api.fetchSensorData s = .ok d) :
    (Repository.fetchSensorDataTry api now sid f t (some l) (some o) st).1.updCalls
      = (if hourFloor t ≠ hourFloor l then [(max f l, t)] else [])
        ++ (if f ≤ o - oneHour then [(f, min t o)] else []) := by
  have hok : ∀ (a b : DateTime) (st1 : Store),
      (Repository.updateSensorData api now sid a b st1).2.2 = none :=
    fun a b st1 => updateSensorData_ok api now sid a b st1 h1 h2
  unfold Repository.fetchSensorDataTry
  by_cases hrecent : hourFloor t ≠ hourFloor l
  · simp only []
    rw [if_pos hrecent]
    rcases hr1 : Repository.updateSensorData api now sid (max f l) t st
      with ⟨calls1, st1, err1⟩
    have herr1 := hok (max f l) t st
    rw [hr1] at herr1
    simp only at herr1
    subst herr1
    simp only []
    by_cases hold : f ≤ o - oneHour
    · rw [if_pos hold]
      simp [hrecent, hold]
    · rw [if_neg hold]
      simp [hrecent, hold]
  · simp only []
    rw [if_neg hrecent]
    simp only []
    by_cases hold : f ≤ o - oneHour
    · rw [if_pos hold]
      simp [hrecent, hold]
    · rw [if_neg hold]
      simp [hrecent, hold]

theorem fetchSensorDataTry_updCalls_noRows (api : ApiOracle) (now sid : Int)
    (f t : DateTime) (latest oldest : Option DateTime) (st : Store)
    (h : latest = none ∨ oldest = none) :
    (Repository.fetchSensorDataTry api now sid f t latest oldest st).1.updCalls
      = [(f, t)] := by
  unfold Repository.fetchSensorDataTry
  rcases latest with _ | l
  · rfl
  · rcases oldest with _ | o
    · rfl
    · rcases h with h | h <;> exact absurd h (by simp)

/-- C4: for a request `[dateFrom, dateTo]` over a sensor with stored rows
(latest and oldest defined) and a working remote client, the recent-edge
refresh covering `[max(dateFrom, latest), dateTo]` is attempted exactly when
`dateTo` and the latest stored point differ once truncated to the hour, the
historical-edge refresh covering `[dateFrom, min(dateTo, oldest)]` is attempted
exactly when `dateFrom` is at least one hour older than the oldest stored
point, the two are independent (both fire for one request when both conditions
hold), and with no stored rows at all the single refresh covers the whole
requested range. -/
theorem claim_C4 :
    (∀ (api : ApiOracle) (now sid : Int) (f t : DateTime) (st : Store)
        (l o : DateTime),
        (∀ s x y, ∃ d, api.fetchSensorArchivalData s x y = .ok d) →
        (∀ s, ∃ d, api.fetchSensorData s = .ok d) →
        DB.fetchLatestSensorRecordDate st sid = some l →
        DB.fetchOldestSensorRecordDate st sid = some o →
        (Repository.fetchSensorData api now sid f (some t) st).1.updCalls
          = (if hourFloor t ≠ hourFloor l then [(max f l, t)] else [])
            ++ (if f ≤ o - oneHour then [(f, min t o)] else []))
  ∧ (∀ (api : ApiOracle) (now sid : Int) (f t : DateTime) (st : Store),
        (DB.fetchLatestSensorRecordDate st sid = none ∨
          DB.fetchOldestSensorRecordDate st sid = none) →
        (Repository.fetchSensorData api now sid f (some t) st).1.updCalls
          = [(f, t)]) := by
  constructor
  · intro api now sid f t st l o h1 h2 hl ho
    rw [fetchSensorData_trace]
    simp only [Option.getD_some, hl, ho]
    exact fetchSensorDataTry_updCalls api now sid f t l o st h1 h2
  · intro api now sid f t st h
    rw [fetchSensorData_trace]
    simp only [Option.getD_some]
    exact fetchSensorDataTry_updCalls_noRows api now sid f t _ _ st h

/-- C4 witness: stored points at minutes 600 and 840, request [480, 960]
(hours 10:00 and 14:00, request 08:00 to 16:00): both edge refreshes fire,
covering [840, 960] and [480, 600]. -/
theorem claim_C4_witness :
    (Repository.fetchSensorData
        ⟨.ok [], fun _ _ _ => .ok [], fun _ => .ok []⟩ 20000 7 480 (some 960)
        { emptyStore with sensorData := [⟨7, 600, 1⟩, ⟨7, 840, 1⟩] }).1.updCalls
      = [(840, 960), (480, 600)] := by
  have h := claim_C4.1 ⟨.ok [], fun _ _ _ => .ok [], fun _ => .ok []⟩ 20000 7 480 960
    { emptyStore with sensorData := [⟨7, 600, 1⟩, ⟨7, 840, 1⟩] } 840 600
    (fun _ _ _ => ⟨[], rfl⟩) (fun _ => ⟨[], rfl⟩) rfl rfl
  rw [h]
  decide

/-! ## C5 — the two-edge range-extension scenario -/

/-- The remote client of the C5 scenario: the archival endpoint serves hourly
points of value 1 covering any requested range. -/
def c5Api : ApiOracle :=
  { fetchStations := .error .connectionError,
    fetchSensorArchivalData := fun _ a b =>
      .ok ((List.range (((b - a).toNat / 60) + 1)).map
        (fun k => ⟨a + 60 * (k : Int), 1⟩)),
    fetchSensorData := fun _ => .ok [] }

/-- Stored points for sensor 7 at minutes 600 and 840 (hours 10:00 and 14:00
of the scenario's day). -/
def c5Store : Store :=
  { emptyStore with sensorData := [⟨7, 600, 1⟩, ⟨7, 840, 1⟩] }

/-- C5: with points stored at hours 10:00 and 14:00 (minutes 600 and 840) and
a request for [08:00, 16:00] (minutes [480, 960], several days in the past so
only the archival endpoint is eligible), exactly two archival fetches occur —
one covering [14:00, 16:00] and one covering [08:00, 10:00] — and once they
are persisted the served range query returns points whose dates span the full
requested window, from 480 through 960 inclusive. -/
theorem claim_C5 :
    (Repository.fetchSensorData c5Api 20000 7 480 (some 960) c5Store).1.apiCalls
      = [.archival 7 840 960, .archival 7 480 600]
  ∧ (Repository.fetchSensorData c5Api 20000 7 480 (some 960) c5Store).2.map
        (fun p => p.2.map (fun v => v.date))
      = .ok [600, 840, 900, 960, 480, 540] := ⟨rfl, rfl⟩

end DaVinci
